import Mathlib

/-!
Shallow embedding of the Beanstalk freestanding libc helpers: the integer
formatters print_int and print_long_long (src/Beanstalk/libc/src/library.c),
the int32_to_string variant (src/Beanstalk/Resources/libc/src/library.c),
and the syscall gateway write (src/Beanstalk/Resources/libc/src/syscalls.c).

Modelling conventions:
* byte sequences are lists of byte values (Nat); 45 is the ASCII dash and 48
  the ASCII digit zero;
* a C pointer is modelled by its address as an Int; the null pointer is 0;
* an operation whose C execution is undefined (casting an infinite or NaN
  double to int, signed-integer overflow on negation, sprintf storing past
  the end of its buffer) yields none;
* the C library log10 on a double holding an exact integer is modelled by the
  exact real logarithm: the integers involved convert to double exactly, and
  the power-of-ten boundary behaviour at issue is already present under exact
  arithmetic;
* the kernel behind the SYS_write trap is a parameter
  kernel : Int → Int → Int → Int giving its return value for the arguments
  (fd, buf, len); the write model returns the C return value together with
  the list of kernel invocations issued, each recorded as its argument
  triple, so that issuing no kernel request is observable.
-/

/-- Decimal digits of m, least significant first, by repeated division by 10.
Structural recursion on a fuel argument; fuel = m suffices since m / 10 < m
for m ≥ 1. -/
def digitsRevFrom : Nat → Nat → List Nat
  | 0, _ => []
  | fuel + 1, m => if m = 0 then [] else m % 10 :: digitsRevFrom fuel (m / 10)

/-- The ASCII bytes of the decimal representation of a magnitude m, most
significant digit first, with the single byte "0" for m = 0. -/
def decimalBytes (m : Nat) : List Nat :=
  if m = 0 then [48] else ((digitsRevFrom m m).reverse).map (fun d => 48 + d)

/-- The canonical decimal representation of an integer as ASCII bytes: a
single leading dash (45) exactly when v is negative, no leading zeros except
the literal "0" for v = 0. This definition follows the words of the
specification, for comparison with the source formatters. -/
def canonicalDecimal (v : Int) : List Nat :=
  if v < 0 then 45 :: decimalBytes (-v).toNat else decimalBytes v.toNat

/-- ceil(log10 m) for m ≥ 1: the least k with m ≤ 10 ^ k, computed by
repeated ceiling division by 10. Structural recursion on a fuel argument;
fuel = m suffices since (m + 9) / 10 < m for m ≥ 2. This is the exact value
of the C expression ceil(log10((double) m)) for the magnitudes involved. -/
def ceilLog10From : Nat → Nat → Nat
  | 0, _ => 0
  | fuel + 1, m => if m ≤ 1 then 0 else ceilLog10From fuel ((m + 9) / 10) + 1

/-- ceil(log10 m) for m ≥ 1 (the m = 0 case of the C code, log10(0) = -inf,
is handled separately by the callers as undefined behaviour). -/
def ceilLog10 (m : Nat) : Nat := ceilLog10From m m

/-- The buffer size the source computes for a magnitude m ≥ 1:
(int)((ceil(log10(m)) + 1) * sizeof(char)). -/
def max_count (m : Nat) : Nat := ceilLog10 m + 1

/-- sprintf(str, "%d", m) for a magnitude m ≥ 1 into a buffer of b bytes:
the digit characters and the terminating NUL must fit in b, otherwise the
store past the end of the buffer is undefined behaviour (none). On success
the bytes later written to the output are the digit characters. -/
def sprintfPos (m b : Nat) : Option (List Nat) :=
  if (decimalBytes m).length + 1 ≤ b then some (decimalBytes m) else none

/-- sprintf(str, "-%d", m) for a magnitude m ≥ 1 into a buffer of b bytes:
the dash, the digit characters and the terminating NUL must fit in b. -/
def sprintfNeg (m b : Nat) : Option (List Nat) :=
  if (45 :: decimalBytes m).length + 1 ≤ b then some (45 :: decimalBytes m)
  else none

/-- print_int from src/Beanstalk/libc/src/library.c. For value ≥ 0 it sizes
char str[max_count] with max_count = (int)(ceil(log10(value)) + 1) and does
sprintf(str, "%d", value); at value = 0, log10(0) is -infinity and the int
cast (and the array size) is undefined. For value < 0 it negates first,
which overflows the 32-bit int at -2^31, then sizes from ceil(log10(-value))
and does sprintf(str, "-%d", -value). The result is the byte sequence fputs
writes to stdout, or none when the execution is undefined. -/
def print_int (value : Int) : Option (List Nat) :=
  if 0 ≤ value then
    if value = 0 then none
    else sprintfPos value.toNat (max_count value.toNat)
  else
    if value = -(2 ^ 31) then none
    else sprintfNeg (-value).toNat (max_count (-value).toNat)

/-- print_long_long from src/Beanstalk/libc/src/library.c. It has no
negative branch: max_count is computed from ceil(log10(value)) directly, so
value = 0 gives -infinity and a negative value gives NaN, and the int cast
of either is undefined behaviour; for value > 0 it behaves like the positive
branch of print_int with the %lld conversion. -/
def print_long_long (value : Int) : Option (List Nat) :=
  if value ≤ 0 then none
  else sprintfPos value.toNat (max_count value.toNat)

/-- int32_to_string from src/Beanstalk/Resources/libc/src/library.c: the
same algorithm as print_int with the buffer obtained from malloc(max_count)
instead of a variable-length array; the sizing, negation and sprintf
behaviour (including every undefined case) are identical. -/
def int32_to_string (value : Int) : Option (List Nat) :=
  if 0 ≤ value then
    if value = 0 then none
    else sprintfPos value.toNat (max_count value.toNat)
  else
    if value = -(2 ^ 31) then none
    else sprintfNeg (-value).toNat (max_count (-value).toNat)

/-- write from src/Beanstalk/Resources/libc/src/syscalls.c:
if (fd == -1 || !data || len < 0) return -1; then SYSCALL3 issues SYS_write
once; a negative kernel return value is collapsed to -1, a non-negative one
is returned unchanged. The first component is the C return value, the second
the list of kernel invocations issued with their argument triples. -/
def write (fd data len : Int) (kernel : Int → Int → Int → Int) :
    Int × List (Int × Int × Int) :=
  if fd = -1 ∨ data = 0 ∨ len < 0 then (-1, [])
  else if kernel fd data len < 0 then (-1, [(fd, data, len)])
  else (kernel fd data len, [(fd, data, len)])

/-- The precondition exactly as claim C5 states it: descriptor ≠ -1, length
non-negative, and the buffer non-null only when length is positive. Written
from the words of the claim, for comparison with the check the source
performs. -/
def claimedPrecondition (fd data len : Int) : Prop :=
  fd ≠ -1 ∧ 0 ≤ len ∧ (0 < len → data ≠ 0)

instance decClaimedPrecondition (fd data len : Int) :
    Decidable (claimedPrecondition fd data len) :=
  inferInstanceAs (Decidable (fd ≠ -1 ∧ 0 ≤ len ∧ (0 < len → data ≠ 0)))

/-- Claim C1: the formatters are claimed to produce the canonical decimal
representation of every value. At -42 (the end-to-end example of the
specification) the canonical bytes are "-42", but print_int and
int32_to_string size the buffer as max_count 42 = 3 while
sprintf(str, "-%d", 42) stores the four bytes dash, 4, 2, NUL: the store
past the end of the buffer is undefined behaviour, so no canonical output is
produced. -/
theorem C1_print_int_not_canonical :
    print_int (-42) = none ∧ int32_to_string (-42) = none ∧
      canonicalDecimal (-42) = [45, 52, 50] := by decide

/-- Claim C2: formatting is claimed to succeed at every width-minimum value.
At -2^31, print_int negates the value in 32-bit int arithmetic, a signed
overflow, so the execution is undefined and no decimal text is produced. -/
theorem C2_print_int_min_overflow : print_int (-(2 ^ 31)) = none := by decide

/-- Claim C3: the digit count is claimed correct at exact powers of ten. At
100 the code computes ceil(log10(100)) = 2 while 100 has 3 decimal digits,
so the 3-byte buffer cannot hold the digits and the terminating NUL and
print_int has undefined behaviour. -/
theorem C3_power_of_ten_digit_count :
    print_int 100 = none ∧ ceilLog10 100 = 2 ∧
      (decimalBytes 100).length = 3 := by decide

/-- Claim C4: the output at value 0 is claimed to be the single byte "0".
The code computes ceil(log10(0)), which is minus infinity, and the cast of
that double to int (and the resulting array size) is undefined behaviour,
so print_int produces no output at 0 even though the canonical bytes are
the single byte 48. -/
theorem C4_zero_undefined :
    print_int 0 = none ∧ canonicalDecimal 0 = [48] := by decide

/-- Claim C5 counterexample: descriptor 1, null buffer, length 0 satisfies
the precondition exactly as the claim states it (the buffer only has to be
non-null when the length is positive), yet write returns the error value -1
and issues no kernel invocation, where the claim requires the checks to pass
and exactly one kernel invocation to be issued. -/
theorem C5_counterexample :
    claimedPrecondition 1 0 0 ∧
      write 1 0 0 (fun _ _ _ => 0) = (-1, []) := by decide

/-- Claim C5 as amended: the source checks the buffer for null regardless of
the length, so write returns -1 immediately with no kernel invocation
exactly when fd = -1, the buffer is null, or the length is negative, and on
any call passing these checks it issues exactly one kernel invocation. -/
theorem C5_fail_fast (fd data len : Int) (k : Int → Int → Int → Int) :
    ((fd = -1 ∨ data = 0 ∨ len < 0) → write fd data len k = (-1, [])) ∧
      (¬(fd = -1 ∨ data = 0 ∨ len < 0) →
        (write fd data len k).2 = [(fd, data, len)]) := by
  constructor
  · intro h
    unfold write
    rw [if_pos h]
  · intro h
    unfold write
    rw [if_neg h]
    split <;> rfl

/-- Claim C5 witness: the amended statement at concrete inputs, one call
failing the checks and one passing them. -/
theorem C5_fail_fast_witness :
    write (-1) 7 3 (fun _ _ _ => 0) = (-1, []) ∧
      (write 2 7 3 (fun _ _ _ => 0)).2 = [(2, 7, 3)] :=
  ⟨(C5_fail_fast (-1) 7 3 (fun _ _ _ => 0)).1 (by decide),
   (C5_fail_fast 2 7 3 (fun _ _ _ => 0)).2 (by decide)⟩

/-- Claim C6 counterexample: the result is claimed to carry the negative
kernel code. Two different negative kernel codes, -5 and -9, produce the
identical caller-visible result -1, so the returned error determines neither
code: the specific code is not carried. -/
theorem C6_counterexample :
    (write 1 7 3 (fun _ _ _ => -5)).1 = -1 ∧
      (write 1 7 3 (fun _ _ _ => -9)).1 = -1 ∧ (-5 : Int) ≠ -9 := by decide

/-- Claim C6 as amended: on a call passing the checks, a negative kernel
return value is mapped uniformly to the single error value -1 with the
specific code discarded, and a non-negative kernel return value r is
returned unchanged, so the result is at most the length whenever the kernel
reports at most length bytes written. -/
theorem C6_kernel_mapping (fd data len : Int) (k : Int → Int → Int → Int)
    (h : ¬(fd = -1 ∨ data = 0 ∨ len < 0)) :
    (k fd data len < 0 → (write fd data len k).1 = -1) ∧
      (0 ≤ k fd data len → (write fd data len k).1 = k fd data len) ∧
      (0 ≤ k fd data len → k fd data len ≤ len →
        (write fd data len k).1 ≤ len) := by
  refine ⟨fun hneg => ?_, fun hpos => ?_, fun hpos hle => ?_⟩
  · unfold write
    rw [if_neg h, if_pos hneg]
  · unfold write
    rw [if_neg h, if_neg (not_lt.mpr hpos)]
  · unfold write
    rw [if_neg h, if_neg (not_lt.mpr hpos)]
    exact hle

/-- Claim C6 witness: the amended statement at a concrete passing call with
a kernel reporting 2 bytes written out of 3 requested. -/
theorem C6_kernel_mapping_witness :
    (write 1 7 3 (fun _ _ _ => 2)).1 = 2 :=
  (C6_kernel_mapping 1 7 3 (fun _ _ _ => 2) (by decide)).2.1 (by decide)

/-- Claim C7: the buffer is claimed to hold exactly the digit count plus a
sign byte. At value 42 the code allocates max_count 42 = 3 bytes while the
canonical text "42" has 2 bytes (the extra byte holds the terminating NUL),
so the buffer is larger than claimed; at value 100 the allocated max_count
100 = 3 bytes are fewer than the 4 bytes sprintf stores, so there the buffer
is too small and bytes past it are touched. -/
theorem C7_buffer_not_exact :
    max_count 42 = 3 ∧ (canonicalDecimal 42).length = 2 ∧
      (decimalBytes 100).length + 1 > max_count 100 := by decide

/-- Claim C8: the decimal parse is claimed to invert the formatter at every
value, in particular at the range boundaries. At the 64-bit boundary
-2^63, print_long_long computes log10 of a negative double, NaN, and the
int cast is undefined behaviour: no byte sequence is produced at all, so no
parse of the output can return the original value. -/
theorem C8_no_roundtrip_at_boundary :
    print_long_long (-(2 ^ 63)) = none := by decide

/-- Claim C9: any descriptor other than -1, including other negative values
such as -2, passes the descriptor check, and with a non-null buffer and a
non-negative length the kernel request is issued with the descriptor, the
buffer and the length unchanged. -/
theorem C9_fd_passthrough (fd data len : Int) (k : Int → Int → Int → Int)
    (hfd : fd ≠ -1) (hdata : data ≠ 0) (hlen : 0 ≤ len) :
    (write fd data len k).2 = [(fd, data, len)] := by
  have h : ¬(fd = -1 ∨ data = 0 ∨ len < 0) := by
    rintro (h1 | h2 | h3)
    · exact hfd h1
    · exact hdata h2
    · exact absurd h3 (not_lt.mpr hlen)
  unfold write
  rw [if_neg h]
  split <;> rfl

/-- Claim C9 witness: descriptor -2, which is negative but different from
-1, is passed to the kernel unchanged. -/
theorem C9_fd_passthrough_witness :
    (write (-2) 7 3 (fun _ _ _ => 3)).2 = [(-2, 7, 3)] :=
  C9_fd_passthrough (-2) 7 3 (fun _ _ _ => 3) (by decide) (by decide)
    (by decide)

/-- Claim C10: every failing call to write, whether the failure is a
rejected precondition (fd = -1, null buffer or negative length) or a
negative kernel return code, returns exactly -1 to the caller, so the
distinct failure causes are indistinguishable at the call site. -/
theorem C10_failures_collapse (fd data len : Int)
    (k : Int → Int → Int → Int)
    (h : (fd = -1 ∨ data = 0 ∨ len < 0) ∨ k fd data len < 0) :
    (write fd data len k).1 = -1 := by
  unfold write
  rcases h with hpre | hk
  · rw [if_pos hpre]
  · by_cases hpre : fd = -1 ∨ data = 0 ∨ len < 0
    · rw [if_pos hpre]
    · rw [if_neg hpre, if_pos hk]

/-- Claim C10 witness: a call rejected by the kernel with code -7 returns
exactly -1. -/
theorem C10_failures_collapse_witness :
    (write 3 7 4 (fun _ _ _ => -7)).1 = -1 :=
  C10_failures_collapse 3 7 4 (fun _ _ _ => -7) (Or.inr (by decide))
